import Mathlib

/-!
Verification development for the weapp-dev-mcp session configuration
resolver and connection lifecycle manager.

The embedding mirrors src/config.ts (configuration resolution) and
src/weappClient.ts (session manager, log buffer, serialization).

Modelling conventions:
- A parsed zod object is a record whose fields have type
  Option (Option a).  The outer layer records whether the KEY is present
  on the JavaScript object (zod keeps a key that is present in the input
  even when its parsed value is undefined), the inner layer is the value
  (none = undefined).  JavaScript object spread copies every present key,
  including keys whose value is undefined; spreadField models that.
- The environment snapshot literal in resolveConfig always carries all of
  its keys (there is no projectPath key in it), so the parsed environment
  object has every key present; EnvParsed holds the parsed values and
  envLayer lifts them to the always-keyed record.
- Fallible code is modelled with Except; JavaScript truthiness of an
  optional string is strTruthy.
-/

inductive AutomatorMode where
  | launch
  | connect
deriving DecidableEq, Repr

/-- Resolved connection configuration, mirroring WeappConnectionConfig in
src/config.ts: mode mandatory, every other field optional. -/
@[ext]
structure WeappConnectionConfig where
  mode : AutomatorMode
  cliPath : Option String := none
  projectPath : Option String := none
  wsEndpoint : Option String := none
  timeout : Option Nat := none
  port : Option Nat := none
  account : Option String := none
  ticket : Option String := none
  trustProject : Option Bool := none
  args : Option (List String) := none
  cwd : Option String := none
  autoClose : Option Bool := none
deriving DecidableEq, Repr

/-- Configuration error carrying the thrown message (class ConfigError). -/
structure ConfigError where
  msg : String
deriving DecidableEq, Repr

/-- Parsed zod overrides object. Each field is none when the key is absent
from the JavaScript object, some none when the key is present with value
undefined, and some (some v) when the key holds value v. -/
structure ZodOverrides where
  mode : Option (Option AutomatorMode) := none
  cliPath : Option (Option String) := none
  projectPath : Option (Option String) := none
  wsEndpoint : Option (Option String) := none
  timeout : Option (Option Nat) := none
  port : Option (Option Nat) := none
  account : Option (Option String) := none
  ticket : Option (Option String) := none
  trustProject : Option (Option Bool) := none
  args : Option (Option (List String)) := none
  cwd : Option (Option String) := none
  autoClose : Option (Option Bool) := none
deriving DecidableEq, Repr

/-- Parsed values of the designated environment variables.  The literal
passed to connectionOverridesSchema.parse in resolveConfig names exactly
these eleven variables; it has no projectPath entry. -/
structure EnvParsed where
  mode : Option AutomatorMode := none
  cliPath : Option String := none
  wsEndpoint : Option String := none
  timeout : Option Nat := none
  port : Option Nat := none
  account : Option String := none
  ticket : Option String := none
  trustProject : Option Bool := none
  args : Option (List String) := none
  cwd : Option String := none
  autoClose : Option Bool := none
deriving DecidableEq, Repr

/-- Object-spread semantics for one key: the right object wins whenever it
carries the key, even when the carried value is undefined. -/
def spreadField {α : Type} (a b : Option (Option α)) : Option (Option α) :=
  match b with
  | some x => some x
  | none => a

/-- Object spread of two parsed zod objects, field by field. -/
def spreadOv (a b : ZodOverrides) : ZodOverrides :=
  { mode := spreadField a.mode b.mode
    cliPath := spreadField a.cliPath b.cliPath
    projectPath := spreadField a.projectPath b.projectPath
    wsEndpoint := spreadField a.wsEndpoint b.wsEndpoint
    timeout := spreadField a.timeout b.timeout
    port := spreadField a.port b.port
    account := spreadField a.account b.account
    ticket := spreadField a.ticket b.ticket
    trustProject := spreadField a.trustProject b.trustProject
    args := spreadField a.args b.args
    cwd := spreadField a.cwd b.cwd
    autoClose := spreadField a.autoClose b.autoClose }

/-- JavaScript truthiness of a string-or-undefined value. -/
def strTruthy : Option String → Bool
  | some s => s ≠ ""
  | none => false

/-- Key-present-when-truthy helper used by fromPrevious for string fields. -/
def truthyKey : Option String → Option (Option String)
  | some s => if s = "" then none else some (some s)
  | none => none

/-- Embedding of fromPrevious in src/config.ts: reduce a previous resolved
configuration to the overrides object whose keys are exactly the fields
the source copies (mode always; strings when truthy; numbers and booleans
when of the right typeof; args when non-empty). -/
def fromPrevious : Option WeappConnectionConfig → ZodOverrides
  | none => {}
  | some p =>
    { mode := some (some p.mode)
      cliPath := truthyKey p.cliPath
      projectPath := truthyKey p.projectPath
      wsEndpoint := truthyKey p.wsEndpoint
      timeout := p.timeout.map some
      port := p.port.map some
      account := truthyKey p.account
      ticket := truthyKey p.ticket
      trustProject := p.trustProject.map some
      args := match p.args with
        | some l => if l.isEmpty then none else some (some l)
        | none => none
      cwd := truthyKey p.cwd
      autoClose := p.autoClose.map some }

/-- Embedding of the parsed environment snapshot: the object literal in
resolveConfig carries all eleven keys (and no projectPath key), so every
key is present in the parsed object, possibly with value undefined. -/
def envLayer (e : EnvParsed) : ZodOverrides :=
  { mode := some e.mode
    cliPath := some e.cliPath
    projectPath := none
    wsEndpoint := some e.wsEndpoint
    timeout := some e.timeout
    port := some e.port
    account := some e.account
    ticket := some e.ticket
    trustProject := some e.trustProject
    args := some e.args
    cwd := some e.cwd
    autoClose := some e.autoClose }

/-- Merged overrides object, the spread expression
\x7b...base, ...envInput, ...overrideConfig\x7d of resolveConfig. -/
def mergeLayers (overrides : Option ZodOverrides)
    (previous : Option WeappConnectionConfig) (env : EnvParsed) :
    ZodOverrides :=
  spreadOv (spreadOv (fromPrevious previous) (envLayer env))
    (overrides.getD {})

/-- Mode inference of resolveConfig: merged.mode if defined, else connect
when merged.wsEndpoint is truthy, else the previous mode, else launch. -/
def inferMode (merged : ZodOverrides)
    (previous : Option WeappConnectionConfig) : AutomatorMode :=
  match merged.mode.join with
  | some m => m
  | none =>
    if strTruthy merged.wsEndpoint.join then AutomatorMode.connect
    else (previous.map (fun p => p.mode)).getD AutomatorMode.launch

/-- Message thrown when connect mode lacks a websocket endpoint. -/
def wsEndpointMsg : String :=
  "WeChat DevTools websocket endpoint is required. Provide connection.wsEndpoint."

/-- Message thrown when launch mode lacks a project path. -/
def projectPathMsg : String :=
  "Mini Program project path is required. Provide connection.projectPath."

/-- Configuration record built by resolveConfig before validation: the
merged layers flattened to values, with the inferred mode. -/
def buildConfig (overrides : Option ZodOverrides)
    (previous : Option WeappConnectionConfig) (env : EnvParsed) :
    WeappConnectionConfig :=
  let merged := mergeLayers overrides previous env
  { mode := inferMode merged previous
    cliPath := merged.cliPath.join
    projectPath := merged.projectPath.join
    wsEndpoint := merged.wsEndpoint.join
    timeout := merged.timeout.join
    port := merged.port.join
    account := merged.account.join
    ticket := merged.ticket.join
    trustProject := merged.trustProject.join
    args := merged.args.join
    cwd := merged.cwd.join
    autoClose := merged.autoClose.join }

/-- Embedding of resolveConfig in src/config.ts, at the typed level (the
zod parses of the layers are modelled by the typed inputs themselves). -/
def resolveConfig (overrides : Option ZodOverrides)
    (previous : Option WeappConnectionConfig) (env : EnvParsed) :
    Except ConfigError WeappConnectionConfig :=
  let config := buildConfig overrides previous env
  if config.mode = AutomatorMode.connect then
    if strTruthy config.wsEndpoint then Except.ok config
    else Except.error ⟨wsEndpointMsg⟩
  else if strTruthy config.projectPath then Except.ok config
  else Except.error ⟨projectPathMsg⟩

/-- Embedding of z.coerce.boolean().optional() applied to an environment
variable: undefined stays undefined, a string becomes its JavaScript
truthiness (Boolean(s)), so exactly the empty string maps to false. -/
def coerceBoolean : Option String → Option Bool
  | none => none
  | some s => some (s ≠ "")

instance exceptDecidableEq {ε α : Type} [DecidableEq ε] [DecidableEq α] :
    DecidableEq (Except ε α)
  | Except.ok a, Except.ok b =>
    if h : a = b then isTrue (by rw [h])
    else isFalse (by intro hh; cases hh; exact h rfl)
  | Except.ok _, Except.error _ => isFalse (by intro h; cases h)
  | Except.error _, Except.ok _ => isFalse (by intro h; cases h)
  | Except.error a, Except.error b =>
    if h : a = b then isTrue (by rw [h])
    else isFalse (by intro hh; cases hh; exact h rfl)

/-- Value of a merged field: the top layer when its key is present,
otherwise the fallback value coming from the lower layers. -/
def pick {α : Type} (o : Option (Option α)) (fallback : Option α) : Option α :=
  match o with
  | some x => x
  | none => fallback

/-- Project path contributed by the previous resolved configuration after
the fromPrevious truthiness reduction. -/
def prevProjectPath : Option WeappConnectionConfig → Option String
  | some p => (truthyKey p.projectPath).join
  | none => none

/-- Decidable substring test used to state that an error message names a
configuration field. -/
def strContains (s pat : String) : Bool :=
  (List.range (s.length + 1)).any (fun i => pat.data.isPrefixOf (s.data.drop i))

/-- Previous configuration used in the C1 counterexample: it defines
cliPath (truthy, non-empty). -/
def prevC1 : WeappConnectionConfig :=
  { mode := AutomatorMode.launch
    cliPath := some "/usr/bin/cli"
    projectPath := some "/proj" }

/-- Overrides used in the C1 witness. -/
def ovC1w : ZodOverrides := { timeout := some (some 30) }

/-- Environment used in the C1 witness. -/
def envC1w : EnvParsed := { port := some 9420 }

/-- Resolved configuration in the C1 witness. -/
def cC1w : WeappConnectionConfig :=
  { mode := AutomatorMode.launch
    projectPath := some "/proj"
    timeout := some 30
    port := some 9420 }

/-- Previous configuration used in the C2 counterexample: it explicitly
asked for launch mode. -/
def prevC2 : WeappConnectionConfig :=
  { mode := AutomatorMode.launch, projectPath := some "/proj" }

/-- JavaScript runtime values observed by the log capture path, as relevant
to the serializers in src/weappClient.ts: null and undefined, the three
scalar typeofs, binary buffers, bigints, arrays and plain objects. -/
inductive JsVal where
  | jnull
  | jundef
  | jstr (s : String)
  | jnum (n : Int)
  | jbool (b : Bool)
  | jbuffer (bytes : List Nat)
  | jbigint (n : Int)
  | jarr (items : List JsVal)
  | jobj (fields : List (String × JsVal))

/-- Embedding of toSerializable in src/weappClient.ts: null, undefined and
the scalar typeofs pass through; arrays map recursively; any other object
— a Buffer included, since the function has no binary branch and a Buffer
is typeof object and not an array — is walked over its enumerable entries
(for a Buffer these are the index keys with the byte values); remaining
typeofs such as bigint fall back to String(value). -/
def toSerializable : JsVal → JsVal
  | JsVal.jnull => JsVal.jnull
  | JsVal.jundef => JsVal.jundef
  | JsVal.jstr s => JsVal.jstr s
  | JsVal.jnum n => JsVal.jnum n
  | JsVal.jbool b => JsVal.jbool b
  | JsVal.jbuffer bytes =>
    JsVal.jobj (bytes.enum.map (fun ib => (toString ib.1, JsVal.jnum ib.2)))
  | JsVal.jbigint n => JsVal.jstr (toString n)
  | JsVal.jarr items =>
    JsVal.jarr (items.attach.map (fun x => toSerializable x.1))
  | JsVal.jobj fields =>
    JsVal.jobj (fields.attach.map (fun x => (x.1.1, toSerializable x.1.2)))
decreasing_by
  · have := List.sizeOf_lt_of_mem x.2
    simp only [JsVal.jarr.sizeOf_spec]
    omega
  · have h1 := List.sizeOf_lt_of_mem x.2
    rcases x with ⟨⟨k, v⟩, hx⟩
    simp only [Prod.mk.sizeOf_spec] at h1
    simp only [JsVal.jobj.sizeOf_spec]
    omega

/-- Test for a string result, used to state that the log-capture serializer
does not produce a textual encoding for binary payloads. -/
def isJsString : JsVal → Bool
  | JsVal.jstr _ => true
  | _ => false

/-- Log entry captured by attachLogging in src/weappClient.ts. -/
structure ConsoleLogEntry where
  type : String
  message : String
  timestamp : Nat
  data : JsVal

/-- Capacity of the console log buffer (this.maxLogs). -/
def maxLogs : Nat := 1000

/-- Embedding of the buffer update in both attachLogging handlers: push the
entry, then shift the oldest entry off when the length exceeds maxLogs. -/
def pushLog (logs : List ConsoleLogEntry) (entry : ConsoleLogEntry) :
    List ConsoleLogEntry :=
  let pushed := logs ++ [entry]
  if maxLogs < pushed.length then pushed.tail else pushed

/-- Mutable state of WeappAutomatorManager: the optional handle (modelled
by an identifier), the stored configuration and the console log buffer. -/
structure ManagerState where
  miniProgram : Option Nat := none
  config : Option WeappConnectionConfig := none
  consoleLogs : List ConsoleLogEntry := []

/-- Observable side effects of a withMiniProgram or close call on the
underlying automator: a connect or launch attempt, the underlying close
or disconnect call, and listener removal. -/
inductive SessionEvent where
  | connectAttempt
  | underlyingClose
  | underlyingDisconnect
  | removeListeners
deriving DecidableEq, Repr

/-- Errors thrown to the caller: UserError or a passed-through value. -/
inductive JsError where
  | userError (msg : String)
  | other (msg : String)
deriving DecidableEq, Repr

/-- Underlying call chosen by close: this.config?.mode === "launch" picks
close(), anything else (connect mode or missing config) disconnect(). -/
def closeEvent (s : ManagerState) : SessionEvent :=
  match s.config with
  | some c =>
    if c.mode = AutomatorMode.launch then SessionEvent.underlyingClose
    else SessionEvent.underlyingDisconnect
  | none => SessionEvent.underlyingDisconnect

/-- Embedding of WeappAutomatorManager.close: no-op without a handle;
otherwise the underlying close or disconnect runs (a thrown error —
closeFails — is caught and only warned), and the finally block removes
the listeners and clears handle and config unconditionally. -/
def closeM (closeFails : Bool) (s : ManagerState) :
    ManagerState × List SessionEvent :=
  match s.miniProgram with
  | none => (s, [])
  | some _ =>
    ({ miniProgram := none, config := none, consoleLogs := s.consoleLogs },
      [closeEvent s, SessionEvent.removeListeners])

/-- Embedding of areArgsEqual in src/weappClient.ts. -/
def areArgsEqual : Option (List String) → Option (List String) → Bool
  | none, none => true
  | none, some _ => false
  | some _, none => false
  | some a, some b => a == b

/-- Embedding of isSameConfig in src/weappClient.ts: strict equality on
every scalar field and order-sensitive equality of args. -/
def isSameConfig (a b : WeappConnectionConfig) : Bool :=
  a.mode == b.mode
    && a.cliPath == b.cliPath
    && a.projectPath == b.projectPath
    && a.wsEndpoint == b.wsEndpoint
    && a.timeout == b.timeout
    && a.port == b.port
    && a.account == b.account
    && a.ticket == b.ticket
    && a.trustProject == b.trustProject
    && a.cwd == b.cwd
    && a.autoClose == b.autoClose
    && areArgsEqual a.args b.args

/-- Reuse decision of withMiniProgram: a handle is active, a config is
stored, and the stored config equals the freshly resolved one. -/
def canReuseB (s : ManagerState) (cfg : WeappConnectionConfig) : Bool :=
  s.miniProgram.isSome
    && (match s.config with
      | some c => isSameConfig c cfg
      | none => false)

/-- UserError message raised when establishing a session fails: it names
whether a connect or a launch was attempted and appends the underlying
message. -/
def failMsg (mode : AutomatorMode) (m : String) : String :=
  "Failed to "
    ++ (if mode = AutomatorMode.connect then "connect to" else "launch")
    ++ " WeChat DevTools: " ++ m

/-- Outcomes of the external calls a withMiniProgram run can make: the
connect or launch result (handle id or thrown message), the outcome of
the caller-supplied handler, and whether the underlying close throws. -/
structure CallOracles (T : Type) where
  connectOutcome : Except String Nat
  handlerOutcome : Except JsError T
  closeFails : Bool

/-- Result of one withMiniProgram call: what it returns or throws, the
manager state afterwards, and the observable automator calls in order. -/
structure CallResult (T : Type) where
  result : Except JsError T
  state : ManagerState
  trace : List SessionEvent

/-- Embedding of WeappAutomatorManager.withMiniProgram: resolve against the
stored config (a ConfigError becomes a UserError); optionally close when
reconnect is requested; reuse the handle when the stored config equals
the resolved one; otherwise close any stale session and connect — on
failure clear handle and config and throw the UserError built by failMsg;
run the handler; finally close when the resolved config asks autoClose. -/
def withMiniProgram {T : Type} (env : EnvParsed) (o : CallOracles T)
    (s : ManagerState) (overrides : Option ZodOverrides)
    (reconnect : Bool) : CallResult T :=
  match resolveConfig overrides s.config env with
  | Except.error e => ⟨Except.error (JsError.userError e.msg), s, []⟩
  | Except.ok config =>
    let s1 := if reconnect then (closeM o.closeFails s).1 else s
    let t1 := if reconnect then (closeM o.closeFails s).2 else []
    if canReuseB s1 config then
      if config.autoClose = some true then
        ⟨o.handlerOutcome, (closeM o.closeFails s1).1,
          t1 ++ (closeM o.closeFails s1).2⟩
      else ⟨o.handlerOutcome, s1, t1⟩
    else
      let s2 := (closeM o.closeFails s1).1
      let t2 := (closeM o.closeFails s1).2
      match o.connectOutcome with
      | Except.error m =>
        ⟨Except.error (JsError.userError (failMsg config.mode m)),
          { miniProgram := none, config := none,
            consoleLogs := s2.consoleLogs },
          t1 ++ t2 ++ [SessionEvent.connectAttempt]⟩
      | Except.ok h =>
        let s3 : ManagerState :=
          { miniProgram := some h, config := some config,
            consoleLogs := s2.consoleLogs }
        if config.autoClose = some true then
          ⟨o.handlerOutcome, (closeM o.closeFails s3).1,
            t1 ++ t2 ++ [SessionEvent.connectAttempt]
              ++ (closeM o.closeFails s3).2⟩
        else ⟨o.handlerOutcome, s3,
          t1 ++ t2 ++ [SessionEvent.connectAttempt]⟩

/-- Entry used in the C8 witness. -/
def logEntryW (i : Nat) : ConsoleLogEntry :=
  { type := "log", message := "m", timestamp := i, data := JsVal.jnull }

/-- 1001 sequential events used in the C8 witness. -/
def esW : List ConsoleLogEntry := (List.range 1001).map logEntryW

/-- Active-session state used by the C6 witness. -/
def stateC6w : ManagerState :=
  { miniProgram := some 3
    config := some { mode := AutomatorMode.launch }
    consoleLogs := [] }

/-- Overrides used by the C5 and C7 witnesses. -/
def ovLaunchW : ZodOverrides := { projectPath := some (some "/p") }

/-- Resolved configuration produced by ovLaunchW on an empty environment. -/
def cfgLaunchW : WeappConnectionConfig :=
  { mode := AutomatorMode.launch, projectPath := some "/p" }

/-- Overrides used by the C7 witness: autoClose requested. -/
def ovAutoCloseW : ZodOverrides :=
  { projectPath := some (some "/p"), autoClose := some (some true) }

/-- Resolved configuration produced by ovAutoCloseW on an empty
environment. -/
def cfgAutoCloseW : WeappConnectionConfig :=
  { mode := AutomatorMode.launch, projectPath := some "/p",
    autoClose := some true }

/-- Stale-session state used by the C4 witness: a session is active under
configuration cfgLaunchW. -/
def stateC4w : ManagerState :=
  { miniProgram := some 7
    config := some cfgLaunchW
    consoleLogs := [] }

/-- Overrides used by the second part of the C4 witness: a different
project path, so the freshly resolved configuration differs. -/
def ovLaunchW2 : ZodOverrides := { projectPath := some (some "/q") }

/-- Resolved configuration produced by ovLaunchW2 on an empty
environment. -/
def cfgLaunchW2 : WeappConnectionConfig :=
  { mode := AutomatorMode.launch, projectPath := some "/q" }

theorem join_spread_env {α : Type} (b : Option (Option α)) (e : Option α)
    (o : Option (Option α)) :
    (spreadField (spreadField b (some e)) o).join = pick o e := by
  cases o <;> rfl

theorem join_spread_noenv {α : Type} (b : Option (Option α))
    (o : Option (Option α)) :
    (spreadField (spreadField b none) o).join = pick o b.join := by
  cases o <;> rfl

theorem fromPrevious_projectPath_join (prev : Option WeappConnectionConfig) :
    (fromPrevious prev).projectPath.join = prevProjectPath prev := by
  cases prev <;> rfl

theorem buildConfig_cliPath (ov : ZodOverrides)
    (prev : Option WeappConnectionConfig) (env : EnvParsed) :
    (buildConfig (some ov) prev env).cliPath = pick ov.cliPath env.cliPath :=
  join_spread_env (fromPrevious prev).cliPath env.cliPath ov.cliPath

theorem buildConfig_projectPath (ov : ZodOverrides)
    (prev : Option WeappConnectionConfig) (env : EnvParsed) :
    (buildConfig (some ov) prev env).projectPath
      = pick ov.projectPath (prevProjectPath prev) := by
  have h := join_spread_noenv (fromPrevious prev).projectPath ov.projectPath
  have h2 := fromPrevious_projectPath_join prev
  calc (buildConfig (some ov) prev env).projectPath
      = pick ov.projectPath (fromPrevious prev).projectPath.join := h
    _ = pick ov.projectPath (prevProjectPath prev) := by rw [h2]

theorem buildConfig_wsEndpoint (ov : ZodOverrides)
    (prev : Option WeappConnectionConfig) (env : EnvParsed) :
    (buildConfig (some ov) prev env).wsEndpoint
      = pick ov.wsEndpoint env.wsEndpoint :=
  join_spread_env (fromPrevious prev).wsEndpoint env.wsEndpoint ov.wsEndpoint

theorem buildConfig_timeout (ov : ZodOverrides)
    (prev : Option WeappConnectionConfig) (env : EnvParsed) :
    (buildConfig (some ov) prev env).timeout = pick ov.timeout env.timeout :=
  join_spread_env (fromPrevious prev).timeout env.timeout ov.timeout

theorem buildConfig_port (ov : ZodOverrides)
    (prev : Option WeappConnectionConfig) (env : EnvParsed) :
    (buildConfig (some ov) prev env).port = pick ov.port env.port :=
  join_spread_env (fromPrevious prev).port env.port ov.port

theorem buildConfig_account (ov : ZodOverrides)
    (prev : Option WeappConnectionConfig) (env : EnvParsed) :
    (buildConfig (some ov) prev env).account = pick ov.account env.account :=
  join_spread_env (fromPrevious prev).account env.account ov.account

theorem buildConfig_ticket (ov : ZodOverrides)
    (prev : Option WeappConnectionConfig) (env : EnvParsed) :
    (buildConfig (some ov) prev env).ticket = pick ov.ticket env.ticket :=
  join_spread_env (fromPrevious prev).ticket env.ticket ov.ticket

theorem buildConfig_trustProject (ov : ZodOverrides)
    (prev : Option WeappConnectionConfig) (env : EnvParsed) :
    (buildConfig (some ov) prev env).trustProject
      = pick ov.trustProject env.trustProject :=
  join_spread_env (fromPrevious prev).trustProject env.trustProject ov.trustProject

theorem buildConfig_args (ov : ZodOverrides)
    (prev : Option WeappConnectionConfig) (env : EnvParsed) :
    (buildConfig (some ov) prev env).args = pick ov.args env.args :=
  join_spread_env (fromPrevious prev).args env.args ov.args

theorem buildConfig_cwd (ov : ZodOverrides)
    (prev : Option WeappConnectionConfig) (env : EnvParsed) :
    (buildConfig (some ov) prev env).cwd = pick ov.cwd env.cwd :=
  join_spread_env (fromPrevious prev).cwd env.cwd ov.cwd

theorem buildConfig_autoClose (ov : ZodOverrides)
    (prev : Option WeappConnectionConfig) (env : EnvParsed) :
    (buildConfig (some ov) prev env).autoClose
      = pick ov.autoClose env.autoClose :=
  join_spread_env (fromPrevious prev).autoClose env.autoClose ov.autoClose

theorem buildConfig_mode (ov : ZodOverrides)
    (prev : Option WeappConnectionConfig) (env : EnvParsed) :
    (buildConfig (some ov) prev env).mode
      = (match pick ov.mode env.mode with
        | some m => m
        | none =>
          if strTruthy (pick ov.wsEndpoint env.wsEndpoint) then
            AutomatorMode.connect
          else (prev.map (fun p => p.mode)).getD AutomatorMode.launch) := by
  show inferMode (mergeLayers (some ov) prev env) prev = _
  unfold inferMode
  rw [show (mergeLayers (some ov) prev env).mode.join = pick ov.mode env.mode
      from join_spread_env (fromPrevious prev).mode env.mode ov.mode]
  rw [show (mergeLayers (some ov) prev env).wsEndpoint.join
        = pick ov.wsEndpoint env.wsEndpoint
      from join_spread_env (fromPrevious prev).wsEndpoint env.wsEndpoint
        ov.wsEndpoint]

theorem resolveConfig_ok_build {ov : Option ZodOverrides}
    {prev : Option WeappConnectionConfig} {env : EnvParsed}
    {c : WeappConnectionConfig}
    (h : resolveConfig ov prev env = Except.ok c) :
    c = buildConfig ov prev env := by
  simp only [resolveConfig] at h
  split at h
  · split at h
    · injection h with h; exact h.symm
    · cases h
  · split at h
    · injection h with h; exact h.symm
    · cases h

theorem resolveConfig_ok_invariant {ov : Option ZodOverrides}
    {prev : Option WeappConnectionConfig} {env : EnvParsed}
    {c : WeappConnectionConfig}
    (h : resolveConfig ov prev env = Except.ok c) :
    (c.mode = AutomatorMode.connect → strTruthy c.wsEndpoint = true)
      ∧ (c.mode ≠ AutomatorMode.connect → strTruthy c.projectPath = true) := by
  simp only [resolveConfig] at h
  split at h
  · split at h
    · injection h with h
      subst h
      constructor
      · intro _; assumption
      · intro hne; exact absurd (by assumption) hne
    · cases h
  · split at h
    · injection h with h
      subst h
      constructor
      · intro hc; exact absurd hc (by assumption)
      · intro _; assumption
    · cases h

theorem truthyKey_join_prev (prev : Option WeappConnectionConfig) :
    (truthyKey (prevProjectPath prev)).join = prevProjectPath prev := by
  cases prev with
  | none => rfl
  | some p =>
    cases hps : p.projectPath with
    | none => simp [prevProjectPath, truthyKey, hps]
    | some s =>
      by_cases hs : s = "" <;> simp [prevProjectPath, truthyKey, hps, hs]

theorem buildConfig_stable {ov : ZodOverrides}
    {prev : Option WeappConnectionConfig} {env : EnvParsed}
    {c : WeappConnectionConfig}
    (h : resolveConfig (some ov) prev env = Except.ok c) :
    buildConfig (some ov) (some c) env = c := by
  have hc := resolveConfig_ok_build h
  apply WeappConnectionConfig.ext
  case mode =>
    have hcm : c.mode = (match pick ov.mode env.mode with
        | some m => m
        | none =>
          if strTruthy (pick ov.wsEndpoint env.wsEndpoint) then
            AutomatorMode.connect
          else (prev.map (fun p => p.mode)).getD AutomatorMode.launch) := by
      rw [hc]; exact buildConfig_mode ov prev env
    rw [buildConfig_mode]
    cases hp : pick ov.mode env.mode with
    | some m => simp only [hp] at hcm ⊢; exact hcm.symm
    | none =>
      simp only [hp] at hcm ⊢
      by_cases hts : strTruthy (pick ov.wsEndpoint env.wsEndpoint) = true
      · simp only [hts, if_true] at hcm ⊢; exact hcm.symm
      · simp only [Bool.not_eq_true] at hts
        simp only [hts, Bool.false_eq_true, if_false] at hcm ⊢
        simp [Option.getD]
  case projectPath =>
    have hpp : c.projectPath = pick ov.projectPath (prevProjectPath prev) := by
      rw [hc]; exact buildConfig_projectPath ov prev env
    rw [buildConfig_projectPath]
    cases hp : ov.projectPath with
    | some x => simp only [pick, hp] at hpp ⊢; exact hpp.symm
    | none =>
      simp only [pick, hp] at hpp ⊢
      show prevProjectPath (some c) = c.projectPath
      show (truthyKey c.projectPath).join = c.projectPath
      rw [hpp]
      exact truthyKey_join_prev prev
  case cliPath =>
    rw [buildConfig_cliPath]
    have : c.cliPath = pick ov.cliPath env.cliPath := by
      rw [hc]; exact buildConfig_cliPath ov prev env
    exact this.symm
  case wsEndpoint =>
    rw [buildConfig_wsEndpoint]
    have : c.wsEndpoint = pick ov.wsEndpoint env.wsEndpoint := by
      rw [hc]; exact buildConfig_wsEndpoint ov prev env
    exact this.symm
  case timeout =>
    rw [buildConfig_timeout]
    have : c.timeout = pick ov.timeout env.timeout := by
      rw [hc]; exact buildConfig_timeout ov prev env
    exact this.symm
  case port =>
    rw [buildConfig_port]
    have : c.port = pick ov.port env.port := by
      rw [hc]; exact buildConfig_port ov prev env
    exact this.symm
  case account =>
    rw [buildConfig_account]
    have : c.account = pick ov.account env.account := by
      rw [hc]; exact buildConfig_account ov prev env
    exact this.symm
  case ticket =>
    rw [buildConfig_ticket]
    have : c.ticket = pick ov.ticket env.ticket := by
      rw [hc]; exact buildConfig_ticket ov prev env
    exact this.symm
  case trustProject =>
    rw [buildConfig_trustProject]
    have : c.trustProject = pick ov.trustProject env.trustProject := by
      rw [hc]; exact buildConfig_trustProject ov prev env
    exact this.symm
  case args =>
    rw [buildConfig_args]
    have : c.args = pick ov.args env.args := by
      rw [hc]; exact buildConfig_args ov prev env
    exact this.symm
  case cwd =>
    rw [buildConfig_cwd]
    have : c.cwd = pick ov.cwd env.cwd := by
      rw [hc]; exact buildConfig_cwd ov prev env
    exact this.symm
  case autoClose =>
    rw [buildConfig_autoClose]
    have : c.autoClose = pick ov.autoClose env.autoClose := by
      rw [hc]; exact buildConfig_autoClose ov prev env
    exact this.symm

theorem resolveConfig_stable {ov : ZodOverrides}
    {prev : Option WeappConnectionConfig} {env : EnvParsed}
    {c : WeappConnectionConfig}
    (h : resolveConfig (some ov) prev env = Except.ok c) :
    resolveConfig (some ov) (some c) env = Except.ok c := by
  have hb := buildConfig_stable h
  have hinv := resolveConfig_ok_invariant h
  simp only [resolveConfig, hb]
  by_cases hm : c.mode = AutomatorMode.connect
  · simp [hm, hinv.1 hm]
  · simp [hm, hinv.2 hm]

/-- C1: the claim states that for EVERY field the highest-precedence layer
that defines the field wins, and a field is absent only when no layer
defines it.  Concrete refutation: the previous resolved configuration
defines cliPath = "/usr/bin/cli", the environment snapshot defines no
field and the call supplies no overrides, yet the resolved configuration
has cliPath absent — the environment snapshot object always carries the
cliPath key (with value undefined) and the spread lets it override the
previous layer.  The resolved projectPath, by contrast, persists. -/
theorem claim1_counterexample :
    resolveConfig none (some prevC1) {}
      = Except.ok { mode := AutomatorMode.launch, projectPath := some "/proj" }
    ∧ prevC1.cliPath = some "/usr/bin/cli" := by
  constructor
  · decide
  · rfl

/-- C1 amended: only projectPath persists from the previous resolved
configuration (the environment snapshot carries no projectPath key); it
takes the value of the overrides layer when that layer carries the key,
otherwise the truthy value of the previous configuration.  Every other
optional field takes the overrides value when the overrides carry the
key and the parsed environment value otherwise; a value defined only in
the previous configuration is discarded for those fields. -/
theorem claim1_theorem (ov : ZodOverrides)
    (prev : Option WeappConnectionConfig) (env : EnvParsed)
    (c : WeappConnectionConfig)
    (h : resolveConfig (some ov) prev env = Except.ok c) :
    c.projectPath = pick ov.projectPath (prevProjectPath prev)
    ∧ c.cliPath = pick ov.cliPath env.cliPath
    ∧ c.wsEndpoint = pick ov.wsEndpoint env.wsEndpoint
    ∧ c.timeout = pick ov.timeout env.timeout
    ∧ c.port = pick ov.port env.port
    ∧ c.account = pick ov.account env.account
    ∧ c.ticket = pick ov.ticket env.ticket
    ∧ c.trustProject = pick ov.trustProject env.trustProject
    ∧ c.args = pick ov.args env.args
    ∧ c.cwd = pick ov.cwd env.cwd
    ∧ c.autoClose = pick ov.autoClose env.autoClose := by
  have hc := resolveConfig_ok_build h
  subst hc
  exact ⟨buildConfig_projectPath ov prev env, buildConfig_cliPath ov prev env,
    buildConfig_wsEndpoint ov prev env, buildConfig_timeout ov prev env,
    buildConfig_port ov prev env, buildConfig_account ov prev env,
    buildConfig_ticket ov prev env, buildConfig_trustProject ov prev env,
    buildConfig_args ov prev env, buildConfig_cwd ov prev env,
    buildConfig_autoClose ov prev env⟩

/-- Witness for claim1_theorem at a concrete input. -/
theorem claim1_theorem_witness :
    cC1w.projectPath = pick ovC1w.projectPath (prevProjectPath (some prevC1))
    ∧ cC1w.cliPath = pick ovC1w.cliPath envC1w.cliPath
    ∧ cC1w.wsEndpoint = pick ovC1w.wsEndpoint envC1w.wsEndpoint
    ∧ cC1w.timeout = pick ovC1w.timeout envC1w.timeout
    ∧ cC1w.port = pick ovC1w.port envC1w.port
    ∧ cC1w.account = pick ovC1w.account envC1w.account
    ∧ cC1w.ticket = pick ovC1w.ticket envC1w.ticket
    ∧ cC1w.trustProject = pick ovC1w.trustProject envC1w.trustProject
    ∧ cC1w.args = pick ovC1w.args envC1w.args
    ∧ cC1w.cwd = pick ovC1w.cwd envC1w.cwd
    ∧ cC1w.autoClose = pick ovC1w.autoClose envC1w.autoClose :=
  claim1_theorem ovC1w (some prevC1) envC1w cC1w (by decide)

/-- C2: the claim states that a merged wsEndpoint does not force connect
when any layer explicitly asked for launch.  Concrete refutation: the
previous layer explicitly carries mode launch, the caller supplies only a
wsEndpoint, the environment is empty — yet the resolved mode is connect,
because the launch mode stored in the previous configuration never
survives the merge (the environment snapshot always carries the mode key,
possibly undefined, and overrides it). -/
theorem claim2_counterexample :
    resolveConfig (some { wsEndpoint := some (some "ws://x") })
      (some prevC2) {}
      = Except.ok
        { mode := AutomatorMode.connect
          projectPath := some "/proj"
          wsEndpoint := some "ws://x" } := by
  decide

/-- C2 amended: the resolved mode is the merged mode when one survived the
merge — which happens exactly when the caller overrides carry the mode
key or the environment defines it, never through the previous
configuration alone; otherwise connect when the merged wsEndpoint is
truthy; otherwise the previous mode when a previous configuration exists;
otherwise launch.  In particular a merged wsEndpoint does not force
connect when an explicit launch survived the merge from the overrides or
the environment. -/
theorem claim2_theorem (ov : ZodOverrides)
    (prev : Option WeappConnectionConfig) (env : EnvParsed)
    (c : WeappConnectionConfig)
    (h : resolveConfig (some ov) prev env = Except.ok c) :
    c.mode = (match pick ov.mode env.mode with
      | some m => m
      | none =>
        if strTruthy (pick ov.wsEndpoint env.wsEndpoint) then
          AutomatorMode.connect
        else (prev.map (fun p => p.mode)).getD AutomatorMode.launch)
    ∧ (pick ov.mode env.mode = some AutomatorMode.launch →
        c.mode = AutomatorMode.launch) := by
  have hc := resolveConfig_ok_build h
  subst hc
  refine ⟨buildConfig_mode ov prev env, fun hp => ?_⟩
  rw [buildConfig_mode ov prev env, hp]

/-- Witness for claim2_theorem at a concrete input: the caller asked for
launch and supplied a wsEndpoint, and launch wins. -/
theorem claim2_theorem_witness :
    (buildConfig
      (some { mode := some (some AutomatorMode.launch)
              wsEndpoint := some (some "ws://x")
              projectPath := some (some "/p") }) none {}).mode
      = AutomatorMode.launch :=
  (claim2_theorem
    { mode := some (some AutomatorMode.launch)
      wsEndpoint := some (some "ws://x")
      projectPath := some (some "/p") }
    none {} _ (by decide)).2 (by decide)

/-- C3: after merge and mode inference, connect mode with a missing (or
empty, hence falsy) wsEndpoint fails with the ConfigError naming
wsEndpoint and how to supply it; launch mode with a missing projectPath
fails with the ConfigError naming projectPath; otherwise the returned
configuration satisfies the mode invariant. -/
theorem claim3_theorem (ov : ZodOverrides)
    (prev : Option WeappConnectionConfig) (env : EnvParsed) :
    ((buildConfig (some ov) prev env).mode = AutomatorMode.connect →
      strTruthy (buildConfig (some ov) prev env).wsEndpoint = false →
      resolveConfig (some ov) prev env = Except.error ⟨wsEndpointMsg⟩)
    ∧ ((buildConfig (some ov) prev env).mode = AutomatorMode.launch →
      strTruthy (buildConfig (some ov) prev env).projectPath = false →
      resolveConfig (some ov) prev env = Except.error ⟨projectPathMsg⟩)
    ∧ (∀ c, resolveConfig (some ov) prev env = Except.ok c →
      (c.mode = AutomatorMode.connect → strTruthy c.wsEndpoint = true)
      ∧ (c.mode = AutomatorMode.launch → strTruthy c.projectPath = true))
    ∧ strContains wsEndpointMsg "wsEndpoint" = true
    ∧ strContains wsEndpointMsg "connection.wsEndpoint" = true
    ∧ strContains projectPathMsg "projectPath" = true
    ∧ strContains projectPathMsg "connection.projectPath" = true := by
  refine ⟨?_, ?_, ?_, by decide, by decide, by decide, by decide⟩
  · intro hm hw
    simp [resolveConfig, hm, hw]
  · intro hm hw
    have hm2 : (buildConfig (some ov) prev env).mode ≠ AutomatorMode.connect := by
      rw [hm]; intro hx; cases hx
    simp [resolveConfig, hm2, hw]
  · intro c h
    have hinv := resolveConfig_ok_invariant h
    refine ⟨hinv.1, fun hl => hinv.2 ?_⟩
    rw [hl]; intro hx; cases hx

/-- Witness for claim3_theorem at a concrete input: connect requested but
no wsEndpoint supplied anywhere. -/
theorem claim3_theorem_witness :
    resolveConfig (some { mode := some (some AutomatorMode.connect) }) none {}
      = Except.error ⟨wsEndpointMsg⟩ :=
  (claim3_theorem { mode := some (some AutomatorMode.connect) } none {}).1
    (by decide) (by decide)

/-- C10: the claim states that no string value can set trustProject or
autoClose to false and that only an absent value leaves them unset.
Concrete refutation: the empty string is a defined string value whose
JavaScript truthiness is false, so an environment variable set to the
empty string yields the field set to false. -/
theorem claim10_counterexample :
    coerceBoolean (some "") = some false
    ∧ resolveConfig (some { projectPath := some (some "/p") }) none
      { trustProject := coerceBoolean (some "") }
      = Except.ok
        { mode := AutomatorMode.launch
          projectPath := some "/p"
          trustProject := some false } := by
  constructor
  · rfl
  · decide

/-- C10 amended: the boolean coercion maps a defined string to its
JavaScript truthiness — every non-empty string, including "false" and
"0", becomes true, and the empty string becomes false; an absent value
stays unset.  The resolver then carries the coerced environment value
into the resolved configuration when no higher layer overrides it. -/
theorem claim10_theorem :
    (∀ s : String, s ≠ "" → coerceBoolean (some s) = some true)
    ∧ coerceBoolean (some "false") = some true
    ∧ coerceBoolean (some "0") = some true
    ∧ coerceBoolean none = none
    ∧ coerceBoolean (some "") = some false
    ∧ resolveConfig (some { projectPath := some (some "/p") }) none
      { trustProject := coerceBoolean (some "false")
        autoClose := coerceBoolean (some "0") }
      = Except.ok
        { mode := AutomatorMode.launch
          projectPath := some "/p"
          trustProject := some true
          autoClose := some true } := by
  refine ⟨fun s hs => ?_, by decide, by decide, rfl, rfl, by decide⟩
  simp [coerceBoolean, hs]

/-- Witness for claim10_theorem at a concrete input. -/
theorem claim10_theorem_witness :
    coerceBoolean (some "no") = some true :=
  claim10_theorem.1 "no" (by decide)

theorem closeM_none {b : Bool} {s : ManagerState}
    (h : s.miniProgram = none) : closeM b s = (s, []) := by
  simp [closeM, h]

theorem closeM_some_fst {b : Bool} {s : ManagerState} {h0 : Nat}
    (h : s.miniProgram = some h0) :
    (closeM b s).1
      = { miniProgram := none, config := none,
          consoleLogs := s.consoleLogs } := by
  simp [closeM, h]

theorem closeM_some_snd {b : Bool} {s : ManagerState} {h0 : Nat}
    (h : s.miniProgram = some h0) :
    (closeM b s).2 = [closeEvent s, SessionEvent.removeListeners] := by
  simp [closeM, h]

theorem closeM_fst_miniProgram (b : Bool) (s : ManagerState) :
    (closeM b s).1.miniProgram = none ∨ closeM b s = (s, []) := by
  cases hm : s.miniProgram with
  | none => exact Or.inr (closeM_none hm)
  | some h0 => exact Or.inl (by rw [closeM_some_fst hm])

theorem closeM_logs (b : Bool) (s : ManagerState) :
    (closeM b s).1.consoleLogs = s.consoleLogs := by
  cases hm : s.miniProgram with
  | none => rw [closeM_none hm]
  | some h0 => rw [closeM_some_fst hm]

theorem closeEvent_cases (s : ManagerState) :
    closeEvent s = SessionEvent.underlyingClose
      ∨ closeEvent s = SessionEvent.underlyingDisconnect := by
  unfold closeEvent
  cases s.config with
  | none => exact Or.inr rfl
  | some c =>
    by_cases hc : c.mode = AutomatorMode.launch
    · exact Or.inl (by simp [hc])
    · exact Or.inr (by simp [hc])

theorem closeM_count_connect (b : Bool) (s : ManagerState) :
    ((closeM b s).2).count SessionEvent.connectAttempt = 0 := by
  cases hm : s.miniProgram with
  | none => rw [closeM_none hm]; rfl
  | some h0 =>
    rw [closeM_some_snd hm]
    rcases closeEvent_cases s with h | h <;> rw [h] <;> rfl

theorem areArgsEqual_iff (a b : Option (List String)) :
    areArgsEqual a b = true ↔ a = b := by
  cases a <;> cases b <;> simp [areArgsEqual]

theorem isSameConfig_iff (a b : WeappConnectionConfig) :
    isSameConfig a b = true ↔ a = b := by
  constructor
  · intro h
    simp only [isSameConfig, Bool.and_eq_true, beq_iff_eq] at h
    obtain ⟨⟨⟨⟨⟨⟨⟨⟨⟨⟨⟨h1, h2⟩, h3⟩, h4⟩, h5⟩, h6⟩, h7⟩, h8⟩, h9⟩, h10⟩,
      h11⟩, h12⟩ := h
    apply WeappConnectionConfig.ext h1 h2 h3 h4 h5 h6 h7 h8 h9
      ((areArgsEqual_iff a.args b.args).mp h12) h10 h11
  · rintro rfl
    simp [isSameConfig, Bool.and_eq_true, beq_iff_eq, areArgsEqual_iff]

theorem withMini_resolveError {T : Type} {env : EnvParsed}
    {o : CallOracles T} {s : ManagerState} {ov : Option ZodOverrides}
    {rc : Bool} {e : ConfigError}
    (h : resolveConfig ov s.config env = Except.error e) :
    withMiniProgram env o s ov rc
      = ⟨Except.error (JsError.userError e.msg), s, []⟩ := by
  unfold withMiniProgram
  rw [h]

theorem withMini_reuse_noClose {T : Type} {env : EnvParsed}
    {o : CallOracles T} {s : ManagerState} {ov : Option ZodOverrides}
    {cfg : WeappConnectionConfig}
    (h : resolveConfig ov s.config env = Except.ok cfg)
    (hr : canReuseB s cfg = true)
    (hac : ¬ cfg.autoClose = some true) :
    withMiniProgram env o s ov false = ⟨o.handlerOutcome, s, []⟩ := by
  unfold withMiniProgram
  rw [h]
  simp [hr, hac]

theorem withMini_reuse_autoClose {T : Type} {env : EnvParsed}
    {o : CallOracles T} {s : ManagerState} {ov : Option ZodOverrides}
    {cfg : WeappConnectionConfig}
    (h : resolveConfig ov s.config env = Except.ok cfg)
    (hr : canReuseB s cfg = true)
    (hac : cfg.autoClose = some true) :
    withMiniProgram env o s ov false
      = ⟨o.handlerOutcome, (closeM o.closeFails s).1,
          (closeM o.closeFails s).2⟩ := by
  unfold withMiniProgram
  rw [h]
  simp [hr, hac]

theorem withMini_connect_ok {T : Type} {env : EnvParsed}
    {o : CallOracles T} {s : ManagerState} {ov : Option ZodOverrides}
    {cfg : WeappConnectionConfig} {hdl : Nat}
    (h : resolveConfig ov s.config env = Except.ok cfg)
    (hr : canReuseB s cfg = false)
    (hc : o.connectOutcome = Except.ok hdl)
    (hac : ¬ cfg.autoClose = some true) :
    withMiniProgram env o s ov false
      = ⟨o.handlerOutcome,
          { miniProgram := some hdl, config := some cfg,
            consoleLogs := s.consoleLogs },
          (closeM o.closeFails s).2 ++ [SessionEvent.connectAttempt]⟩ := by
  unfold withMiniProgram
  rw [h]
  simp [hr, hc, hac, closeM_logs]

theorem withMini_connect_ok_autoClose {T : Type} {env : EnvParsed}
    {o : CallOracles T} {s : ManagerState} {ov : Option ZodOverrides}
    {cfg : WeappConnectionConfig} {hdl : Nat}
    (h : resolveConfig ov s.config env = Except.ok cfg)
    (hr : canReuseB s cfg = false)
    (hc : o.connectOutcome = Except.ok hdl)
    (hac : cfg.autoClose = some true) :
    withMiniProgram env o s ov false
      = ⟨o.handlerOutcome,
          { miniProgram := none, config := none,
            consoleLogs := s.consoleLogs },
          (closeM o.closeFails s).2 ++ [SessionEvent.connectAttempt]
            ++ (closeM o.closeFails
              { miniProgram := some hdl, config := some cfg,
                consoleLogs := s.consoleLogs }).2⟩ := by
  unfold withMiniProgram
  rw [h]
  have hclear := closeM_some_fst (b := o.closeFails)
    (s := { miniProgram := some hdl, config := some cfg,
            consoleLogs := s.consoleLogs }) rfl
  simp [hr, hc, hac, closeM_logs]
  exact hclear

theorem withMini_connect_error {T : Type} {env : EnvParsed}
    {o : CallOracles T} {s : ManagerState} {ov : Option ZodOverrides}
    {cfg : WeappConnectionConfig} {m : String}
    (h : resolveConfig ov s.config env = Except.ok cfg)
    (hr : canReuseB s cfg = false)
    (hc : o.connectOutcome = Except.error m) :
    withMiniProgram env o s ov false
      = ⟨Except.error (JsError.userError (failMsg cfg.mode m)),
          { miniProgram := none, config := none,
            consoleLogs := s.consoleLogs },
          (closeM o.closeFails s).2 ++ [SessionEvent.connectAttempt]⟩ := by
  unfold withMiniProgram
  rw [h]
  simp [hr, hc, closeM_logs]

theorem pushLog_eq_drop (acc : List ConsoleLogEntry) (e : ConsoleLogEntry)
    (h : acc.length ≤ 1000) :
    pushLog acc e = (acc ++ [e]).drop (acc.length + 1 - 1000) := by
  simp only [pushLog, maxLogs]
  by_cases h1 : acc.length + 1 ≤ 1000
  · have hc : ¬ (1000 < (acc ++ [e]).length) := by
      simp only [List.length_append, List.length_singleton]
      omega
    have hd : acc.length + 1 - 1000 = 0 := by omega
    rw [if_neg hc, hd, List.drop_zero]
  · have hl : acc.length = 1000 := by omega
    have hc : 1000 < (acc ++ [e]).length := by
      simp only [List.length_append, List.length_singleton]
      omega
    have hd : acc.length + 1 - 1000 = 1 := by omega
    rw [if_pos hc, hd, List.drop_one]

theorem foldl_pushLog (es acc : List ConsoleLogEntry)
    (h : acc.length ≤ 1000) :
    List.foldl pushLog acc es
      = (acc ++ es).drop (acc.length + es.length - 1000) := by
  induction es generalizing acc with
  | nil =>
    simp only [List.foldl_nil, List.append_nil, List.length_nil]
    have hd : acc.length + 0 - 1000 = 0 := by omega
    rw [hd, List.drop_zero]
  | cons e es ih =>
    have hstep := pushLog_eq_drop acc e h
    have hlen : (pushLog acc e).length ≤ 1000 := by
      rw [hstep, List.length_drop]
      simp only [List.length_append, List.length_singleton]
      omega
    rw [List.foldl_cons, ih _ hlen, hstep, List.length_drop]
    have hdle : acc.length + 1 - 1000 ≤ (acc ++ [e]).length := by
      simp only [List.length_append, List.length_singleton]
      omega
    rw [← List.drop_append_of_le_length hdle, List.drop_drop]
    have hl2 : ((acc ++ [e]) ++ es) = acc ++ e :: es := by
      simp
    rw [hl2]
    have hlen_app : (acc ++ [e]).length = acc.length + 1 := by
      simp
    rw [hlen_app, List.length_cons]
    have hidx : acc.length + 1 - 1000
          + (acc.length + 1 - (acc.length + 1 - 1000) + es.length - 1000)
        = acc.length + (es.length + 1) - 1000 := by omega
    rw [hidx]

/-- C8: the console log buffer is a bounded FIFO of capacity 1000: a push
keeps the length at most 1000, a sequence of pushes from the empty buffer
leaves exactly the most recent 1000 entries in arrival order (the drop of
the oldest prefix), and 1001 sequential events leave exactly 1000 entries
with the first (oldest) entry gone. -/
theorem claim8_theorem :
    (∀ (logs : List ConsoleLogEntry) (e : ConsoleLogEntry),
      logs.length ≤ 1000 → (pushLog logs e).length ≤ 1000)
    ∧ (∀ es : List ConsoleLogEntry,
      List.foldl pushLog [] es = es.drop (es.length - 1000))
    ∧ (∀ es : List ConsoleLogEntry, es.length = 1001 →
      List.foldl pushLog [] es = es.tail
        ∧ (List.foldl pushLog [] es).length = 1000)
    ∧ (∀ (e : ConsoleLogEntry) (es : List ConsoleLogEntry),
      (e :: es).length = 1001 → (e :: es).Nodup →
      ¬ e ∈ List.foldl pushLog [] (e :: es)) := by
  have hfold : ∀ es : List ConsoleLogEntry,
      List.foldl pushLog [] es = es.drop (es.length - 1000) := by
    intro es
    have h := foldl_pushLog es [] (by simp)
    simpa using h
  refine ⟨?_, hfold, ?_, ?_⟩
  · intro logs e h
    rw [pushLog_eq_drop logs e h, List.length_drop]
    simp only [List.length_append, List.length_singleton]
    omega
  · intro es hlen
    constructor
    · rw [hfold, hlen]
      norm_num
    · rw [hfold, List.length_drop, hlen]
  · intro e es hlen hnd
    rw [hfold (e :: es), hlen]
    norm_num
    exact (List.nodup_cons.mp hnd).1

/-- Witness for claim8_theorem at a concrete sequence of 1001 events. -/
theorem claim8_theorem_witness :
    List.foldl pushLog [] esW = esW.tail
      ∧ (List.foldl pushLog [] esW).length = 1000 :=
  claim8_theorem.2.2.1 esW (by simp [esW])

/-- C9: the claim states that the serialization used by the log-capture
path turns binary payloads into a textual encoding.  Concrete refutation:
toSerializable — the function the console and exception handlers call —
has no binary branch, so a two-byte buffer is walked through the generic
object branch and becomes an index-keyed object of byte numbers, not a
string. -/
theorem claim9_counterexample :
    toSerializable (JsVal.jbuffer [104, 105])
      = JsVal.jobj [("0", JsVal.jnum 104), ("1", JsVal.jnum 105)]
    ∧ isJsString (toSerializable (JsVal.jbuffer [104, 105])) = false := by
  have h : toSerializable (JsVal.jbuffer [104, 105])
      = JsVal.jobj (([104, 105] : List Nat).enum.map
        (fun ib => (toString ib.1, JsVal.jnum ib.2))) := by
    simp [toSerializable]
  constructor
  · rw [h]; rfl
  · rw [h]; rfl

/-- C9 amended: for every value captured into the log, toSerializable
passes null, undefined, strings, numbers and booleans through unchanged;
arrays and plain objects are walked recursively; binary payloads are NOT
specially encoded — they take the generic object branch and become
index-keyed objects of their byte values; only remaining non-object
typeofs (such as bigint) fall back to a string representation. -/
theorem claim9_theorem :
    toSerializable JsVal.jnull = JsVal.jnull
    ∧ toSerializable JsVal.jundef = JsVal.jundef
    ∧ (∀ s, toSerializable (JsVal.jstr s) = JsVal.jstr s)
    ∧ (∀ n, toSerializable (JsVal.jnum n) = JsVal.jnum n)
    ∧ (∀ b, toSerializable (JsVal.jbool b) = JsVal.jbool b)
    ∧ (∀ items, toSerializable (JsVal.jarr items)
        = JsVal.jarr (items.map toSerializable))
    ∧ (∀ fields, toSerializable (JsVal.jobj fields)
        = JsVal.jobj (fields.map (fun kv => (kv.1, toSerializable kv.2))))
    ∧ (∀ bytes, toSerializable (JsVal.jbuffer bytes)
        = JsVal.jobj (bytes.enum.map
          (fun ib => (toString ib.1, JsVal.jnum ib.2))))
    ∧ (∀ n, toSerializable (JsVal.jbigint n) = JsVal.jstr (toString n))
    ∧ (∀ bytes, isJsString (toSerializable (JsVal.jbuffer bytes)) = false) := by
  refine ⟨by simp [toSerializable], by simp [toSerializable],
    fun s => by simp [toSerializable], fun n => by simp [toSerializable],
    fun b => by simp [toSerializable],
    ?_, ?_, fun bytes => by simp [toSerializable],
    fun n => by simp [toSerializable], ?_⟩
  · intro items
    simp [toSerializable, List.attach_map_coe]
  · intro fields
    simp only [toSerializable]
    exact congrArg JsVal.jobj
      (List.attach_map_coe fields (fun kv => (kv.1, toSerializable kv.2)))
  · intro bytes
    simp [toSerializable, isJsString]

/-- C6: close never raises (the embedding is total because the source
catches the underlying failure and only warns); it always ends with
handle and config cleared when handle and config are paired; a repeated
close is a no-op that performs no underlying call; close with no active
session is a no-op; and when a handle was active the listeners are
removed. -/
theorem claim6_theorem :
    (∀ (s : ManagerState) (b : Bool),
      (s.miniProgram = none → s.config = none) →
      (closeM b s).1.miniProgram = none ∧ (closeM b s).1.config = none)
    ∧ (∀ (s : ManagerState) (b b2 : Bool),
      closeM b2 (closeM b s).1 = ((closeM b s).1, []))
    ∧ (∀ (s : ManagerState) (b : Bool),
      s.miniProgram = none → closeM b s = (s, []))
    ∧ (∀ (s : ManagerState) (b : Bool) (h0 : Nat),
      s.miniProgram = some h0 →
      SessionEvent.removeListeners ∈ (closeM b s).2) := by
  refine ⟨?_, ?_, ?_, ?_⟩
  · intro s b hpair
    cases hm : s.miniProgram with
    | none => rw [closeM_none hm]; exact ⟨hm, hpair hm⟩
    | some h0 => rw [closeM_some_fst hm]; exact ⟨rfl, rfl⟩
  · intro s b b2
    cases hm : s.miniProgram with
    | none =>
      rw [closeM_none hm]
      exact closeM_none hm
    | some h0 =>
      rw [closeM_some_fst hm]
      exact closeM_none rfl
  · intro s b hm
    exact closeM_none hm
  · intro s b h0 hm
    rw [closeM_some_snd hm]
    simp

/-- Witness for claim6_theorem at a concrete state. -/
theorem claim6_theorem_witness :
    (closeM false stateC6w).1.miniProgram = none
    ∧ (closeM false stateC6w).1.config = none :=
  claim6_theorem.1 stateC6w false (by intro h; cases h)

/-- C5: when establishing a new session fails, the call returns the
UserError naming connect or launch and carrying the underlying message,
and the manager retains no partial state: handle and config are both
cleared. -/
theorem claim5_theorem {T : Type} (env : EnvParsed) (s : ManagerState)
    (ov : Option ZodOverrides) (cfg : WeappConnectionConfig) (m : String)
    (ho : Except JsError T) (b : Bool)
    (h : resolveConfig ov s.config env = Except.ok cfg)
    (hr : canReuseB s cfg = false) :
    (withMiniProgram env ⟨Except.error m, ho, b⟩ s ov false).result
      = Except.error (JsError.userError
        ("Failed to "
          ++ (if cfg.mode = AutomatorMode.connect then "connect to"
            else "launch")
          ++ " WeChat DevTools: " ++ m))
    ∧ (withMiniProgram env ⟨Except.error m, ho, b⟩ s ov false).state.miniProgram
      = none
    ∧ (withMiniProgram env ⟨Except.error m, ho, b⟩ s ov false).state.config
      = none := by
  have hrun := withMini_connect_error
    (o := ⟨Except.error m, ho, b⟩) h hr rfl
  rw [hrun]
  exact ⟨rfl, rfl, rfl⟩

/-- Witness for claim5_theorem at a concrete input: the launch attempt
fails with message boom. -/
theorem claim5_theorem_witness :
    (withMiniProgram {} ⟨Except.error "boom", Except.ok (0 : Nat), false⟩
        {} (some ovLaunchW) false).result
      = Except.error (JsError.userError
        "Failed to launch WeChat DevTools: boom")
    ∧ (withMiniProgram {} ⟨Except.error "boom", Except.ok (0 : Nat), false⟩
        {} (some ovLaunchW) false).state.miniProgram = none
    ∧ (withMiniProgram {} ⟨Except.error "boom", Except.ok (0 : Nat), false⟩
        {} (some ovLaunchW) false).state.config = none :=
  claim5_theorem {} {} (some ovLaunchW) cfgLaunchW "boom"
    (Except.ok (0 : Nat)) false (by decide) (by decide)

/-- C7: with a resolved config that requests autoClose, after the call
returns the manager holds no session (handle and config cleared) and the
result is exactly the handler outcome — whether it returned a value or
threw — regardless of whether the session was reused or freshly
connected, and regardless of whether the underlying close throws. -/
theorem claim7_theorem {T : Type} (env : EnvParsed) (s : ManagerState)
    (ov : Option ZodOverrides) (cfg : WeappConnectionConfig) (hdl : Nat)
    (ho : Except JsError T) (b : Bool)
    (h : resolveConfig ov s.config env = Except.ok cfg)
    (hac : cfg.autoClose = some true) :
    (withMiniProgram env ⟨Except.ok hdl, ho, b⟩ s ov false).result = ho
    ∧ (withMiniProgram env ⟨Except.ok hdl, ho, b⟩ s ov false).state.miniProgram
      = none
    ∧ (withMiniProgram env ⟨Except.ok hdl, ho, b⟩ s ov false).state.config
      = none := by
  by_cases hr : canReuseB s cfg = true
  · have hrun := withMini_reuse_autoClose (o := ⟨Except.ok hdl, ho, b⟩) h hr hac
    rw [hrun]
    have hm : ∃ h0, s.miniProgram = some h0 := by
      have hs : s.miniProgram.isSome = true := by
        simp only [canReuseB, Bool.and_eq_true] at hr
        exact hr.1
      exact Option.isSome_iff_exists.mp hs
    obtain ⟨h0, hm⟩ := hm
    rw [closeM_some_fst hm]
    exact ⟨rfl, rfl, rfl⟩
  · have hr2 : canReuseB s cfg = false := by
      cases hb : canReuseB s cfg
      · rfl
      · exact absurd hb hr
    have hrun := withMini_connect_ok_autoClose
      (o := ⟨Except.ok hdl, ho, b⟩) h hr2 rfl hac
    rw [hrun]
    exact ⟨rfl, rfl, rfl⟩

/-- Witness for claim7_theorem at a concrete input. -/
theorem claim7_theorem_witness :
    (withMiniProgram {} ⟨Except.ok 9, Except.ok (42 : Nat), false⟩
        {} (some ovAutoCloseW) false).result = Except.ok 42
    ∧ (withMiniProgram {} ⟨Except.ok 9, Except.ok (42 : Nat), false⟩
        {} (some ovAutoCloseW) false).state.miniProgram = none
    ∧ (withMiniProgram {} ⟨Except.ok 9, Except.ok (42 : Nat), false⟩
        {} (some ovAutoCloseW) false).state.config = none :=
  claim7_theorem {} {} (some ovAutoCloseW) cfgAutoCloseW 9
    (Except.ok (42 : Nat)) false (by decide) (by decide)

/-- C4: the claim quantifies over every valid overrides set, but an
overrides set that enables autoClose tears the session down after the
first call, so the second field-identical call connects again.  Concrete
refutation: with projectPath and autoClose overrides, two consecutive
field-identical calls perform two connect attempts, not one. -/
theorem claim4_counterexample :
    ((withMiniProgram {} ⟨Except.ok 1, Except.ok (0 : Nat), false⟩
        {} (some ovAutoCloseW) false).trace
      ++ (withMiniProgram {} ⟨Except.ok 2, Except.ok (0 : Nat), false⟩
          (withMiniProgram {} ⟨Except.ok 1, Except.ok (0 : Nat), false⟩
            {} (some ovAutoCloseW) false).state
          (some ovAutoCloseW) false).trace).count
      SessionEvent.connectAttempt = 2 := by
  rfl

/-- C4 amended: for every overrides set whose resolved configuration does
not enable autoClose (and with reconnect not requested), two consecutive
withMiniProgram calls with identical overrides under a fixed environment
perform exactly one connect attempt — the second call reuses the handle
because the stored config re-resolves to itself field for field —
while a second call whose freshly resolved configuration differs from
the stored one in any field (args order included, by the structural
equality isSameConfig decides) performs an underlying teardown call and
a new connect attempt. -/
theorem claim4_theorem :
    (∀ (T U : Type) (env : EnvParsed) (ov : ZodOverrides)
      (cfg : WeappConnectionConfig) (hdl1 hdl2 : Nat)
      (r1 : Except JsError T) (r2 : Except JsError U) (b1 b2 : Bool),
      resolveConfig (some ov) none env = Except.ok cfg →
      ¬ cfg.autoClose = some true →
      ((withMiniProgram env ⟨Except.ok hdl1, r1, b1⟩ {} (some ov) false).trace
        ++ (withMiniProgram env ⟨Except.ok hdl2, r2, b2⟩
            (withMiniProgram env ⟨Except.ok hdl1, r1, b1⟩ {}
              (some ov) false).state
            (some ov) false).trace).count SessionEvent.connectAttempt = 1)
    ∧ (∀ (T : Type) (env : EnvParsed) (o : CallOracles T) (s : ManagerState)
      (ov : Option ZodOverrides) (h0 : Nat) (c0 cfg : WeappConnectionConfig),
      s.miniProgram = some h0 → s.config = some c0 →
      resolveConfig ov s.config env = Except.ok cfg → ¬ cfg = c0 →
      ((withMiniProgram env o s ov false).trace.count
          SessionEvent.connectAttempt = 1
        ∧ (SessionEvent.underlyingClose
            ∈ (withMiniProgram env o s ov false).trace
          ∨ SessionEvent.underlyingDisconnect
            ∈ (withMiniProgram env o s ov false).trace))) := by
  constructor
  · intro T U env ov cfg hdl1 hdl2 r1 r2 b1 b2 h hac
    have hr1 : canReuseB {} cfg = false := rfl
    have hrun1 := withMini_connect_ok
      (o := ⟨Except.ok hdl1, r1, b1⟩) (s := {}) h hr1 rfl hac
    have hcl : closeM b1 ({} : ManagerState) = ({}, []) := closeM_none rfl
    rw [hcl] at hrun1
    simp only at hrun1
    rw [hrun1]
    have hres2 : resolveConfig (some ov)
        (ManagerState.config
          { miniProgram := some hdl1, config := some cfg,
            consoleLogs := ({} : ManagerState).consoleLogs }) env
        = Except.ok cfg := resolveConfig_stable h
    have hr2 : canReuseB
        { miniProgram := some hdl1, config := some cfg,
          consoleLogs := ({} : ManagerState).consoleLogs } cfg = true := by
      simp only [canReuseB, Option.isSome_some, Bool.true_and]
      exact (isSameConfig_iff cfg cfg).mpr rfl
    have hrun2 := withMini_reuse_noClose
      (o := ⟨Except.ok hdl2, r2, b2⟩) hres2 hr2 hac
    rw [hrun2]
    rfl
  · intro T env o s ov h0 c0 cfg hm hcfg hres hne
    have hsc : isSameConfig c0 cfg = false := by
      cases hb : isSameConfig c0 cfg
      · rfl
      · exact absurd ((isSameConfig_iff c0 cfg).mp hb).symm hne
    have hr : canReuseB s cfg = false := by
      simp [canReuseB, hm, hcfg, hsc]
    have hmem : SessionEvent.underlyingClose ∈ (closeM o.closeFails s).2
        ∨ SessionEvent.underlyingDisconnect ∈ (closeM o.closeFails s).2 := by
      rw [closeM_some_snd hm]
      rcases closeEvent_cases s with hce | hce <;> rw [hce]
      · left; simp
      · right; simp
    cases hco : o.connectOutcome with
    | error m =>
      have hrun := withMini_connect_error hres hr hco
      rw [hrun]
      constructor
      · simp only [List.count_append, closeM_count_connect]
        rfl
      · rcases hmem with hx | hx
        · exact Or.inl (by simp [hx])
        · exact Or.inr (by simp [hx])
    | ok hdl =>
      by_cases hac : cfg.autoClose = some true
      · have hrun := withMini_connect_ok_autoClose hres hr hco hac
        rw [hrun]
        constructor
        · simp only [List.count_append, closeM_count_connect]
          rfl
        · rcases hmem with hx | hx
          · exact Or.inl (by simp [hx])
          · exact Or.inr (by simp [hx])
      · have hrun := withMini_connect_ok hres hr hco hac
        rw [hrun]
        constructor
        · simp only [List.count_append, closeM_count_connect]
          rfl
        · rcases hmem with hx | hx
          · exact Or.inl (by simp [hx])
          · exact Or.inr (by simp [hx])

/-- Witness for claim4_theorem at concrete inputs: identical overrides
give one connect attempt across two calls; a changed projectPath on an
active session forces a teardown call and a new connect attempt. -/
theorem claim4_theorem_witness :
    (((withMiniProgram {} ⟨Except.ok 1, Except.ok (0 : Nat), false⟩
        {} (some ovLaunchW) false).trace
      ++ (withMiniProgram {} ⟨Except.ok 2, Except.ok (0 : Nat), false⟩
          (withMiniProgram {} ⟨Except.ok 1, Except.ok (0 : Nat), false⟩
            {} (some ovLaunchW) false).state
          (some ovLaunchW) false).trace).count SessionEvent.connectAttempt = 1)
    ∧ ((withMiniProgram {} ⟨Except.ok 8, Except.ok (0 : Nat), false⟩
        stateC4w (some ovLaunchW2) false).trace.count
        SessionEvent.connectAttempt = 1
      ∧ (SessionEvent.underlyingClose
          ∈ (withMiniProgram {} ⟨Except.ok 8, Except.ok (0 : Nat), false⟩
            stateC4w (some ovLaunchW2) false).trace
        ∨ SessionEvent.underlyingDisconnect
          ∈ (withMiniProgram {} ⟨Except.ok 8, Except.ok (0 : Nat), false⟩
            stateC4w (some ovLaunchW2) false).trace)) :=
  ⟨claim4_theorem.1 Nat Nat {} ovLaunchW cfgLaunchW 1 2
      (Except.ok 0) (Except.ok 0) false false (by decide) (by decide),
    claim4_theorem.2 Nat {} ⟨Except.ok 8, Except.ok 0, false⟩ stateC4w
      (some ovLaunchW2) 7 cfgLaunchW cfgLaunchW2
      (by rfl) (by rfl) (by decide) (by decide)⟩
